import Mathlib

/-!
Verification of the crew-controller legality engine, replacement search and
crew-swap operations, as a shallow embedding of the TypeScript sources
(`src/services/legality-engine.ts`, `src/services/crew-state-service.ts`,
`src/tools/execute-crew-swap.ts`).

Modelling conventions:
* UTC instants (ISO 8601 strings parsed via `new Date(...).getTime()` in the
  source) are epoch milliseconds, `Int`.
* JS numbers used for hours / scores / dollars are `Rat` (the source only
  adds, multiplies and compares them; no float-specific behaviour is claimed).
* Wall-clock-dependent output fields (`timestamp`, `auditLogId`,
  `transactionId`, `sentAt`, `rollbackDeadline`) and the free-text
  `recommendation` strings are not modelled: no verdict or ranking logic
  reads them.
* The JS `Map` iteration order (insertion order) is modelled by plain lists;
  `Map.set` replaces in place or appends (`mapSetState` below).
* `Array.prototype.sort` with the comparator `(a, b) => b.rankScore -
  a.rankScore` is (per the ECMAScript spec) a stable descending sort by
  `rankScore`; it is modelled by the structurally recursive stable insertion
  sort `sortByRankDesc` below, which produces the unique stable descending
  order.
-/

/-- Severity tiers of a compliance finding (`ViolationSeverity`). -/
inductive Severity where
  | blocking
  | warning
  | advisory
deriving DecidableEq, Repr

/-- A compliance finding (`ComplianceViolation`).  The free-text
`recommendation` field of the source is omitted: nothing reads it. -/
structure Violation where
  category : String
  rule : String
  description : String
  severity : Severity
  currentValue : Option Rat := none
  limitValue : Option Rat := none
deriving DecidableEq, Repr

/-- A legality verdict (`LegalityCheck`).  The wall-clock `timestamp` and the
random `auditLogId` are omitted: no logic reads them. -/
structure LegalityCheck where
  isLegal : Bool
  violations : List Violation
  warnings : List Violation
  checksPerformed : List String
deriving DecidableEq, Repr

/-- One flight segment of a proposed duty (`FlightSegment`). -/
structure FlightSegment where
  flightNumber : String
  departureUtc : Int
  arrivalUtc : Int
  flightTimeHours : Rat
  origin : String
  destination : String
deriving DecidableEq, Repr

/-- A proposed duty period (`DutyPeriod`). -/
structure DutyPeriod where
  startTimeUtc : Int
  endTimeUtc : Int
  reportTimeUtc : Int
  releaseTimeUtc : Int
  flights : List FlightSegment
  totalDutyHours : Rat
  totalFlightHours : Rat
deriving DecidableEq, Repr

/-- The rule-limit table (`Part117Limits`). -/
structure Part117Limits where
  maxFlightDutyPeriod : Rat
  maxFlightTime : Rat
  minRestPeriod : Rat
  extendedRestPeriod : Rat
  maxFlightHours28Days : Rat
  maxFlightHours365Days : Rat
  maxDutyHours168Hours : Rat
  woclStart : String
  woclEnd : String
deriving DecidableEq, Repr

/-- The fixed limit table of `LegalityEngine` (`private part117Limits`). -/
def part117Limits : Part117Limits :=
  { maxFlightDutyPeriod := 13
    maxFlightTime := 9
    minRestPeriod := 10
    extendedRestPeriod := 12
    maxFlightHours28Days := 100
    maxFlightHours365Days := 1000
    maxDutyHours168Hours := 60
    woclStart := "02:00"
    woclEnd := "06:00" }

/-- Crew duty-state categories (`CrewStateType`). -/
inductive CrewStateType where
  | DUTY
  | REST
  | RESERVE
  | OFF
  | SICK
  | VACATION
deriving DecidableEq, Repr

/-- Crew positions (`CrewPosition`). -/
inductive CrewPosition where
  | CA
  | FO
  | FA
deriving DecidableEq, Repr

/-- The per-crew mutable duty record (`CrewDutyState`). -/
structure CrewDutyState where
  employeeId : String
  stateStartUtc : Int
  stateEndUtc : Int
  stateType : CrewStateType
  currentLocation : String
  dutyHoursCumulative : Rat
  restHoursCumulative : Rat
  flightHoursMonth : Rat
  flightHoursYear : Rat
  lastWoclExposure : Option Int := none
  consecutiveDutyDays : Int
  assignedFlights : List String
  reportTimeUtc : Option Int := none
deriving DecidableEq, Repr

/-- Crew qualifications (`CrewQualifications`); only the aircraft-type list is
read by the modelled operations (via `includes`, a string comparison), so the
currency/rating/language lists are omitted. -/
structure CrewQualifications where
  aircraftTypes : List String
deriving DecidableEq, Repr

/-- Immutable crew reference data (`CrewMember`).  `seniority` and
`contactInfo` are omitted: the modelled operations never read them. -/
structure CrewMember where
  employeeId : String
  firstName : String
  lastName : String
  position : CrewPosition
  base : String
  qualifications : CrewQualifications
deriving DecidableEq, Repr

/-! ## Legality engine (`src/services/legality-engine.ts`) -/

/-- The blocking duty-length finding built by `checkFlightDutyPeriod`. -/
def fdpViolation (duty : DutyPeriod) : Violation :=
  { category := "part117"
    rule := "117.25(d)"
    description := "Flight duty period exceeds maximum allowed"
    severity := Severity.blocking
    currentValue := some duty.totalDutyHours
    limitValue := some part117Limits.maxFlightDutyPeriod }

/-- `LegalityEngine.checkFlightDutyPeriod`. -/
def checkFlightDutyPeriod (duty : DutyPeriod) : Option Violation :=
  if duty.totalDutyHours > part117Limits.maxFlightDutyPeriod then
    some (fdpViolation duty)
  else
    none

/-- The blocking flight-time finding built by `checkFlightTime`. -/
def flightTimeViolation (duty : DutyPeriod) : Violation :=
  { category := "part117"
    rule := "117.11(a)"
    description := "Flight time within duty period exceeds maximum"
    severity := Severity.blocking
    currentValue := some duty.totalFlightHours
    limitValue := some part117Limits.maxFlightTime }

/-- `LegalityEngine.checkFlightTime`. -/
def checkFlightTime (duty : DutyPeriod) : Option Violation :=
  if duty.totalFlightHours > part117Limits.maxFlightTime then
    some (flightTimeViolation duty)
  else
    none

/-- Observed rest in hours:
`(nextDutyStart.getTime() - lastDutyEnd.getTime()) / (1000 * 60 * 60)`. -/
def restHoursOf (crewState : CrewDutyState) (proposedDuty : DutyPeriod) : Rat :=
  ((proposedDuty.startTimeUtc - crewState.stateEndUtc : Int) : Rat) / (1000 * 60 * 60)

/-- Required rest: extended when `consecutiveDutyDays >= 3`. -/
def requiredRestFor (crewState : CrewDutyState) : Rat :=
  if crewState.consecutiveDutyDays >= 3 then
    part117Limits.extendedRestPeriod
  else
    part117Limits.minRestPeriod

/-- The blocking insufficient-rest finding built by `checkRestRequirements`. -/
def restViolation (crewState : CrewDutyState) (proposedDuty : DutyPeriod) : Violation :=
  { category := "part117"
    rule := "117.25(b)"
    description := "Insufficient rest period between duties"
    severity := Severity.blocking
    currentValue := some (restHoursOf crewState proposedDuty)
    limitValue := some (requiredRestFor crewState) }

/-- `LegalityEngine.checkRestRequirements`. -/
def checkRestRequirements (crewState : CrewDutyState) (proposedDuty : DutyPeriod) :
    Option Violation :=
  if restHoursOf crewState proposedDuty < requiredRestFor crewState then
    some (restViolation crewState proposedDuty)
  else
    none

/-- The blocking 28-day-cap finding built by `checkCumulativeLimits`. -/
def monthCapViolation (crewState : CrewDutyState) (proposedDuty : DutyPeriod) : Violation :=
  { category := "part117"
    rule := "117.23(b)"
    description := "28-day flight hour limit would be exceeded"
    severity := Severity.blocking
    currentValue := some (crewState.flightHoursMonth + proposedDuty.totalFlightHours)
    limitValue := some part117Limits.maxFlightHours28Days }

/-- The blocking 365-day-cap finding built by `checkCumulativeLimits`. -/
def yearCapViolation (crewState : CrewDutyState) (proposedDuty : DutyPeriod) : Violation :=
  { category := "part117"
    rule := "117.23(b)"
    description := "365-day flight hour limit would be exceeded"
    severity := Severity.blocking
    currentValue := some (crewState.flightHoursYear + proposedDuty.totalFlightHours)
    limitValue := some part117Limits.maxFlightHours365Days }

/-- `LegalityEngine.checkCumulativeLimits`: the 28-day check, then the annual
check, each pushing one blocking violation when its projected total exceeds
the cap. -/
def checkCumulativeLimits (crewState : CrewDutyState) (proposedDuty : DutyPeriod) :
    List Violation :=
  (if crewState.flightHoursMonth + proposedDuty.totalFlightHours >
      part117Limits.maxFlightHours28Days then
    [monthCapViolation crewState proposedDuty]
  else []) ++
  (if crewState.flightHoursYear + proposedDuty.totalFlightHours >
      part117Limits.maxFlightHours365Days then
    [yearCapViolation crewState proposedDuty]
  else [])

/-- `new Date(ms).getUTCHours()`: floor-divide to hours, then reduce modulo
24 (floor division plus Euclidean remainder agrees with the JS calendar
computation for all instants). -/
def dutyHourOf (duty : DutyPeriod) : Int :=
  (Int.fdiv duty.startTimeUtc 3600000) % 24

/-- The circadian-low warning built by `checkWoclExposure`. -/
def woclViolation : Violation :=
  { category := "fatigue_risk"
    rule := "FRMS_WOCL"
    description := "Duty overlaps Window of Circadian Low (" ++
      part117Limits.woclStart ++ "-" ++ part117Limits.woclEnd ++ ")"
    severity := Severity.warning }

/-- `LegalityEngine.checkWoclExposure`: warn when the start instant's UTC
hour-of-day is between 2 and 6 inclusive (`dutyHour >= 2 && dutyHour <= 6`). -/
def checkWoclExposure (duty : DutyPeriod) : Option Violation :=
  if 2 <= dutyHourOf duty ∧ dutyHourOf duty <= 6 then
    some woclViolation
  else
    none

/-- The consecutive-duty-days advisory built by `assessFatigueRisk`. -/
def consecutiveDutyViolation (crewState : CrewDutyState) : Violation :=
  { category := "fatigue_risk"
    rule := "FRMS_CONSECUTIVE_DUTY"
    description := "Crew has worked " ++ toString crewState.consecutiveDutyDays ++
      " consecutive days"
    severity := Severity.advisory }

/-- The long-duty advisory built by `assessFatigueRisk`. -/
def longDutyViolation : Violation :=
  { category := "fatigue_risk"
    rule := "FRMS_LONG_DUTY"
    description := "Duty period exceeds 11 hours"
    severity := Severity.advisory }

/-- `LegalityEngine.assessFatigueRisk`: an advisory when
`consecutiveDutyDays >= 5`, then an advisory when `totalDutyHours > 11`. -/
def assessFatigueRisk (crewState : CrewDutyState) (proposedDuty : DutyPeriod) :
    List Violation :=
  (if crewState.consecutiveDutyDays >= 5 then
    [consecutiveDutyViolation crewState]
  else []) ++
  (if proposedDuty.totalDutyHours > 11 then
    [longDutyViolation]
  else [])

/-- The violations accumulated by the `part117` branch of `validateDuty`, in
push order: duty length, flight time, rest, cumulative limits. -/
def part117Violations (crewState : CrewDutyState) (proposedDuty : DutyPeriod) :
    List Violation :=
  (checkFlightDutyPeriod proposedDuty).toList ++
  (checkFlightTime proposedDuty).toList ++
  (checkRestRequirements crewState proposedDuty).toList ++
  checkCumulativeLimits crewState proposedDuty

/-- `LegalityEngine.validateDuty`.  The `part117` branch accumulates blocking
violations and the circadian-low warning; the `fatigue_risk` branch appends
the fatigue advisories to the warnings.  `checksPerformed` is
`checkCategories.map(c => c as any)`, i.e. the input list itself. -/
def validateDuty (crewState : CrewDutyState) (proposedDuty : DutyPeriod)
    (checkCategories : List String) : LegalityCheck :=
  let violations :=
    if checkCategories.contains "part117" then
      part117Violations crewState proposedDuty
    else []
  let warnings :=
    (if checkCategories.contains "part117" then
      (checkWoclExposure proposedDuty).toList
    else []) ++
    (if checkCategories.contains "fatigue_risk" then
      assessFatigueRisk crewState proposedDuty
    else [])
  { isLegal := (violations.filter (fun v => v.severity == Severity.blocking)).length == 0
    violations := violations
    warnings := warnings
    checksPerformed := checkCategories }

/-! ## Crew state service (`src/services/crew-state-service.ts`) -/

/-- Logistics estimate attached to a candidate (`CrewLogistics`). -/
structure CrewLogistics where
  currentLocation : String
  positioningRequired : Bool
  positioningFlight : Option String := none
  readyTimeUtc : Int
  travelTimeMinutes : Rat
deriving DecidableEq, Repr

/-- Cost estimate attached to a candidate (`CrewCost`). -/
structure CrewCost where
  payCredit : Rat
  perDiem : Rat
  deadheadCost : Rat
  hotelCost : Rat
  overtimePremium : Rat
  totalUsd : Rat
deriving DecidableEq, Repr

/-- A ranked replacement candidate (`CrewReplacement`). -/
structure CrewReplacement where
  employeeId : String
  name : String
  legality : LegalityCheck
  logistics : CrewLogistics
  cost : CrewCost
  rankScore : Rat
deriving DecidableEq, Repr

/-- The service's in-memory stores (`CrewStateService`): one `Map` of duty
states and one of crew members, each keyed by employee id and iterated in
insertion order. -/
structure CrewStateService where
  crewStates : List CrewDutyState
  crewMembers : List CrewMember
deriving DecidableEq, Repr

/-- `CrewStateService.getCrewStatus`: `Map.get`, i.e. the (unique) entry with
the given employee id, or absence. -/
def getCrewStatus (svc : CrewStateService) (employeeId : String) : Option CrewDutyState :=
  svc.crewStates.find? (fun s => s.employeeId == employeeId)

/-- `Map.get` over the member store. -/
def getCrewMember (svc : CrewStateService) (employeeId : String) : Option CrewMember :=
  svc.crewMembers.find? (fun m => m.employeeId == employeeId)

/-- `CrewStateService.getCrewByState`. -/
def getCrewByState (svc : CrewStateService) (stateType : CrewStateType) : List CrewDutyState :=
  svc.crewStates.filter (fun s => s.stateType == stateType)

/-- `CrewStateService.getCrewAtLocation`. -/
def getCrewAtLocation (svc : CrewStateService) (location : String) : List CrewDutyState :=
  svc.crewStates.filter (fun s => s.currentLocation == location)

/-- `Map.set` semantics: replace the entry with the same key in place,
otherwise append. -/
def mapSetState (l : List CrewDutyState) (s : CrewDutyState) : List CrewDutyState :=
  if l.any (fun t => t.employeeId == s.employeeId) then
    l.map (fun t => if t.employeeId == s.employeeId then s else t)
  else
    l ++ [s]

/-- `CrewStateService.updateCrewState`. -/
def updateCrewState (svc : CrewStateService) (state : CrewDutyState) : CrewStateService :=
  { svc with crewStates := mapSetState svc.crewStates state }

/-- Parameters of `CrewStateService.findReplacementCrew`. -/
structure FindReplacementParams where
  flightNumber : String
  position : CrewPosition
  departureTimeUtc : Int
  base : String
  aircraftType : String
  maxResults : Nat
  includeDeadheadOptions : Bool
deriving DecidableEq, Repr

/-- The hypothetical duty period built per candidate inside
`findReplacementCrew`: a 6.5-hour duty with 5 flight hours anchored at the
departure instant (end = departure + 5 h, report = departure − 1 h,
release = departure + 5.5 h). -/
def buildProposedDuty (departureTimeUtc : Int) : DutyPeriod :=
  { startTimeUtc := departureTimeUtc
    endTimeUtc := departureTimeUtc + 5 * 60 * 60 * 1000
    reportTimeUtc := departureTimeUtc - 1 * 60 * 60 * 1000
    releaseTimeUtc := departureTimeUtc + 19800000
    flights := []
    totalDutyHours := 13 / 2
    totalFlightHours := 5 }

/-- `CrewStateService.calculateCrewCost`. -/
def calculateCrewCost (state : CrewDutyState) (duty : DutyPeriod) : CrewCost :=
  let payCredit := duty.totalFlightHours
  let perDiem := duty.totalDutyHours * (5 / 2)
  let deadheadCost : Rat := 0
  let hotelCost : Rat := 0
  let overtimePremium := if state.flightHoursMonth > 75 then payCredit * 50 else 0
  { payCredit := payCredit
    perDiem := perDiem
    deadheadCost := deadheadCost
    hotelCost := hotelCost
    overtimePremium := overtimePremium
    totalUsd := payCredit * 100 + perDiem + overtimePremium }

/-- `CrewStateService.calculateRankScore`: base 100, −5 per warning, −10 when
total cost exceeds 1000, −15 when an overtime premium applies, +10 when
cumulative duty hours are below 20, +5 when consecutive duty days are below
3, clamped to [0, 100]. -/
def calculateRankScore (state : CrewDutyState) (legality : LegalityCheck)
    (cost : CrewCost) : Rat :=
  let score : Rat := 100
  let score := score - legality.warnings.length * 5
  let score := if cost.totalUsd > 1000 then score - 10 else score
  let score := if cost.overtimePremium > 0 then score - 15 else score
  let score := if state.dutyHoursCumulative < 20 then score + 10 else score
  let score := if state.consecutiveDutyDays < 3 then score + 5 else score
  max 0 (min 100 score)

/-- The reserve pool examined by `findReplacementCrew`: reserves whose
member record matches base, position and aircraft-type qualification.
`includeDeadheadOptions` is destructured away by the source and plays no
part. -/
def replacementPool (svc : CrewStateService) (params : FindReplacementParams) :
    List CrewDutyState :=
  (getCrewByState svc CrewStateType.RESERVE).filter (fun state =>
    match getCrewMember svc state.employeeId with
    | some member =>
        member.base == params.base &&
        member.position == params.position &&
        member.qualifications.aircraftTypes.contains params.aircraftType
    | none => false)

/-- The candidate record built for one legal reserve inside the
`findReplacementCrew` loop. -/
def buildCandidate (member : CrewMember) (reserve : CrewDutyState)
    (params : FindReplacementParams) (legalityCheck : LegalityCheck)
    (cost : CrewCost) (rankScore : Rat) : CrewReplacement :=
  { employeeId := member.employeeId
    name := member.lastName ++ ", " ++ member.firstName
    legality := legalityCheck
    logistics :=
      { currentLocation := reserve.currentLocation
        positioningRequired := false
        positioningFlight := none
        readyTimeUtc := params.departureTimeUtc
        travelTimeMinutes := 0 }
    cost := cost
    rankScore := rankScore }

/-- The candidate list accumulated by the `findReplacementCrew` loop, in pool
order: skip reserves whose member record is missing, evaluate legality with
categories `["part117", "fatigue_risk"]`, skip illegal reserves, attach cost
and rank score. -/
def legalCandidates (svc : CrewStateService) (params : FindReplacementParams) :
    List CrewReplacement :=
  (replacementPool svc params).filterMap (fun reserve =>
    match getCrewMember svc reserve.employeeId with
    | none => none
    | some member =>
        let proposedDuty := buildProposedDuty params.departureTimeUtc
        let legalityCheck := validateDuty reserve proposedDuty ["part117", "fatigue_risk"]
        if legalityCheck.isLegal then
          let cost := calculateCrewCost reserve proposedDuty
          let rankScore := calculateRankScore reserve legalityCheck cost
          some (buildCandidate member reserve params legalityCheck cost rankScore)
        else
          none)

/-- Stable insertion step for the descending sort by `rankScore`: an element
is placed before the first already-sorted element whose score is not
strictly greater, so earlier elements keep priority on ties. -/
def insertByRankDesc (a : CrewReplacement) : List CrewReplacement → List CrewReplacement
  | [] => [a]
  | b :: l =>
      if a.rankScore < b.rankScore then
        b :: insertByRankDesc a l
      else
        a :: b :: l

/-- Stable descending sort by `rankScore`, modelling
`candidates.sort((a, b) => b.rankScore - a.rankScore)` (a stable sort under
the ECMAScript specification). -/
def sortByRankDesc : List CrewReplacement → List CrewReplacement
  | [] => []
  | a :: l => insertByRankDesc a (sortByRankDesc l)

/-- `CrewStateService.findReplacementCrew`: filter the reserve pool, keep the
legal candidates, sort by rank score descending and return the top
`maxResults`. -/
def findReplacementCrew (svc : CrewStateService) (params : FindReplacementParams) :
    List CrewReplacement :=
  (sortByRankDesc (legalCandidates svc params)).take params.maxResults

/-! ## Crew swap (`src/tools/execute-crew-swap.ts`) -/

/-- Input of `executeCrewSwap` (`ExecuteCrewSwapInput`). -/
structure ExecuteCrewSwapInput where
  flightNumber : String
  position : CrewPosition
  originalCrewId : String
  replacementCrewId : String
  reason : String
  effectiveTimeUtc : Int
  notifyCrews : Bool
  dryRun : Bool
deriving DecidableEq, Repr

/-- Payload of a tracked change (`beforeState`/`afterState`): either a
crew-assignment record or a whole duty state.  The `assignedAt` stamp of
assignment records is wall-clock-bound and omitted. -/
inductive SwapEntityState where
  | assignment (flightNumber : String) (position : CrewPosition) (employeeId : String)
  | duty (state : CrewDutyState)
deriving DecidableEq, Repr

/-- One tracked change (`SwapChange`). -/
structure SwapChange where
  entity : String
  entityId : String
  action : String
  beforeState : Option SwapEntityState
  afterState : Option SwapEntityState
deriving DecidableEq, Repr

/-- One notification record (`NotificationRecord`); the wall-clock `sentAt`
stamp is omitted. -/
structure NotificationRecord where
  recipientId : String
  channel : String
  message : String
  status : String
deriving DecidableEq, Repr

/-- Result shape of `executeCrewSwap`; fields absent from a given return
object keep their defaults.  The wall-clock `timestamp`, random
`transactionId`, `rollbackDeadline` and the `costImpact` estimate are
omitted: the claims and the state transition do not read them. -/
structure SwapResult where
  error : Bool := false
  message : String := ""
  status : Option String := none
  dryRun : Bool := false
  changes : List SwapChange := []
  notifications : List NotificationRecord := []
  rollbackAvailable : Bool := false
deriving DecidableEq, Repr

/-- Printable position code for notification text. -/
def CrewPosition.code : CrewPosition → String
  | CrewPosition.CA => "CA"
  | CrewPosition.FO => "FO"
  | CrewPosition.FA => "FA"

/-- The updated state of the outgoing crew member: back to reserve, with the
flight removed from the assignment list. -/
def swappedOriginalState (originalCrew : CrewDutyState) (flightNumber : String) :
    CrewDutyState :=
  { originalCrew with
      stateType := CrewStateType.RESERVE
      assignedFlights := originalCrew.assignedFlights.filter (fun f => f != flightNumber) }

/-- The updated state of the incoming crew member: on duty, with the flight
appended and the report time set to the effective instant. -/
def swappedReplacementState (replacementCrew : CrewDutyState) (flightNumber : String)
    (effectiveTimeUtc : Int) : CrewDutyState :=
  { replacementCrew with
      stateType := CrewStateType.DUTY
      assignedFlights := replacementCrew.assignedFlights ++ [flightNumber]
      reportTimeUtc := some effectiveTimeUtc }

/-- The four tracked changes of a swap, in push order. -/
def swapChanges (input : ExecuteCrewSwapInput) (originalCrew replacementCrew : CrewDutyState) :
    List SwapChange :=
  [ { entity := "crew_assignment"
      entityId := input.flightNumber ++ "-" ++ input.originalCrewId
      action := "delete"
      beforeState := some (SwapEntityState.assignment input.flightNumber input.position
        input.originalCrewId)
      afterState := none }
  , { entity := "crew_assignment"
      entityId := input.flightNumber ++ "-" ++ input.replacementCrewId
      action := "create"
      beforeState := none
      afterState := some (SwapEntityState.assignment input.flightNumber input.position
        input.replacementCrewId) }
  , { entity := "duty_state"
      entityId := input.originalCrewId
      action := "update"
      beforeState := some (SwapEntityState.duty originalCrew)
      afterState := some (SwapEntityState.duty
        (swappedOriginalState originalCrew input.flightNumber)) }
  , { entity := "duty_state"
      entityId := input.replacementCrewId
      action := "update"
      beforeState := some (SwapEntityState.duty replacementCrew)
      afterState := some (SwapEntityState.duty
        (swappedReplacementState replacementCrew input.flightNumber
          input.effectiveTimeUtc)) } ]

/-- The pending notifications of a swap (empty unless `notifyCrews`). -/
def swapNotifications (input : ExecuteCrewSwapInput) : List NotificationRecord :=
  if input.notifyCrews then
    [ { recipientId := input.originalCrewId
        channel := "app_push"
        message := "You have been removed from flight " ++ input.flightNumber ++
          ". Reason: " ++ input.reason ++
          ". Contact crew scheduling if you have questions."
        status := "pending" }
    , { recipientId := input.replacementCrewId
        channel := "app_push"
        message := "You have been assigned to flight " ++ input.flightNumber ++
          " as " ++ input.position.code ++ ". Report time: " ++
          toString input.effectiveTimeUtc ++ ". Check your app for details."
        status := "pending" } ]
  else []

/-- `executeCrewSwap`: validate both ids, build the change set and
notifications, and either stop before any store write (dry run) or apply
both whole-record state replacements and mark the notifications sent.
Returns the result together with the service state after the call. -/
def executeCrewSwap (input : ExecuteCrewSwapInput) (svc : CrewStateService) :
    SwapResult × CrewStateService :=
  match getCrewStatus svc input.originalCrewId with
  | none =>
      ({ error := true
         message := "Original crew member " ++ input.originalCrewId ++ " not found" }, svc)
  | some originalCrew =>
    match getCrewStatus svc input.replacementCrewId with
    | none =>
        ({ error := true
           message := "Replacement crew member " ++ input.replacementCrewId ++
             " not found" }, svc)
    | some replacementCrew =>
        let changes := swapChanges input originalCrew replacementCrew
        let notifications := swapNotifications input
        if input.dryRun then
          ({ status := some "pending"
             dryRun := true
             message := "Dry run completed successfully - no changes made"
             changes := changes
             notifications := notifications
             rollbackAvailable := false }, svc)
        else
          let svc1 := updateCrewState svc
            (swappedOriginalState originalCrew input.flightNumber)
          let svc2 := updateCrewState svc1
            (swappedReplacementState replacementCrew input.flightNumber
              input.effectiveTimeUtc)
          ({ status := some "completed"
             message := "Crew swap executed successfully"
             changes := changes
             notifications := notifications.map (fun n => { n with status := "sent" })
             rollbackAvailable := true }, svc2)

/-! ## Helper lemmas about the legality engine -/

theorem mem_ite_list {α : Type} {c : Prop} [Decidable c] {l : List α} {a : α} :
    a ∈ (if c then l else []) ↔ c ∧ a ∈ l := by
  by_cases h : c <;> simp [h]

theorem mem_ite_singleton {α : Type} {c : Prop} [Decidable c] {x a : α} :
    a ∈ (if c then [x] else []) ↔ c ∧ a = x := by
  by_cases h : c <;> simp [h]

theorem mem_ite_option {α : Type} {c : Prop} [Decidable c] {x a : α} :
    a ∈ (if c then some x else none : Option α).toList ↔ c ∧ a = x := by
  by_cases h : c <;> simp [h]

/-- Membership in the `part117` violation list, check by check. -/
theorem mem_part117Violations {cs : CrewDutyState} {d : DutyPeriod} {v : Violation} :
    v ∈ part117Violations cs d ↔
      (d.totalDutyHours > 13 ∧ v = fdpViolation d) ∨
      (d.totalFlightHours > 9 ∧ v = flightTimeViolation d) ∨
      (restHoursOf cs d < requiredRestFor cs ∧ v = restViolation cs d) ∨
      (cs.flightHoursMonth + d.totalFlightHours > 100 ∧ v = monthCapViolation cs d) ∨
      (cs.flightHoursYear + d.totalFlightHours > 1000 ∧ v = yearCapViolation cs d) := by
  simp [part117Violations, checkFlightDutyPeriod, checkFlightTime, checkRestRequirements,
    checkCumulativeLimits, part117Limits, mem_ite_singleton, mem_ite_option,
    List.mem_append, eq_comm]

/-- Every `part117`-group finding is blocking. -/
theorem part117Violations_blocking {cs : CrewDutyState} {d : DutyPeriod} :
    ∀ v ∈ part117Violations cs d, v.severity = Severity.blocking := by
  intro v hv
  rcases mem_part117Violations.mp hv with
    ⟨_, rfl⟩ | ⟨_, rfl⟩ | ⟨_, rfl⟩ | ⟨_, rfl⟩ | ⟨_, rfl⟩ <;> rfl

/-- Every `part117`-group finding carries category `part117`. -/
theorem part117Violations_category {cs : CrewDutyState} {d : DutyPeriod} :
    ∀ v ∈ part117Violations cs d, v.category = "part117" := by
  intro v hv
  rcases mem_part117Violations.mp hv with
    ⟨_, rfl⟩ | ⟨_, rfl⟩ | ⟨_, rfl⟩ | ⟨_, rfl⟩ | ⟨_, rfl⟩ <;> rfl

theorem validateDuty_violations_of_part117 {cs : CrewDutyState} {d : DutyPeriod}
    {cats : List String} (h : "part117" ∈ cats) :
    (validateDuty cs d cats).violations = part117Violations cs d := by
  simp [validateDuty, h]

theorem validateDuty_violations_of_not_part117 {cs : CrewDutyState} {d : DutyPeriod}
    {cats : List String} (h : "part117" ∉ cats) :
    (validateDuty cs d cats).violations = [] := by
  simp [validateDuty, h]

theorem validateDuty_checksPerformed {cs : CrewDutyState} {d : DutyPeriod}
    {cats : List String} : (validateDuty cs d cats).checksPerformed = cats := by
  simp [validateDuty]

/-- The warnings of a verdict, source by source. -/
theorem validateDuty_warnings_eq {cs : CrewDutyState} {d : DutyPeriod}
    {cats : List String} :
    (validateDuty cs d cats).warnings =
      (if "part117" ∈ cats then (checkWoclExposure d).toList else []) ++
      (if "fatigue_risk" ∈ cats then assessFatigueRisk cs d else []) := by
  simp [validateDuty]

/-- Membership in the fatigue-risk advisory list. -/
theorem mem_assessFatigueRisk {cs : CrewDutyState} {d : DutyPeriod} {w : Violation} :
    w ∈ assessFatigueRisk cs d ↔
      (cs.consecutiveDutyDays ≥ 5 ∧ w = consecutiveDutyViolation cs) ∨
      (d.totalDutyHours > 11 ∧ w = longDutyViolation) := by
  simp [assessFatigueRisk, mem_ite_singleton, List.mem_append]

/-- Membership in the warnings of a verdict, source by source. -/
theorem mem_validateDuty_warnings {cs : CrewDutyState} {d : DutyPeriod}
    {cats : List String} {w : Violation} :
    w ∈ (validateDuty cs d cats).warnings ↔
      ("part117" ∈ cats ∧
        (2 ≤ dutyHourOf d ∧ dutyHourOf d ≤ 6) ∧ w = woclViolation) ∨
      ("fatigue_risk" ∈ cats ∧
        ((cs.consecutiveDutyDays ≥ 5 ∧ w = consecutiveDutyViolation cs) ∨
         (d.totalDutyHours > 11 ∧ w = longDutyViolation))) := by
  simp [validateDuty, checkWoclExposure, mem_ite_list, mem_ite_option,
    mem_assessFatigueRisk, List.mem_append, and_assoc, eq_comm]

/-- The legal flag, expressed over the verdict's own violation list. -/
theorem validateDuty_isLegal_eq {cs : CrewDutyState} {d : DutyPeriod}
    {cats : List String} :
    (validateDuty cs d cats).isLegal =
      (((validateDuty cs d cats).violations.filter
        (fun v => v.severity == Severity.blocking)).length == 0) := by
  simp [validateDuty]

/-- The verdict's legal flag is set exactly when the violation list holds no
blocking entry. -/
theorem validateDuty_isLegal_iff {cs : CrewDutyState} {d : DutyPeriod}
    {cats : List String} :
    (validateDuty cs d cats).isLegal = true ↔
      ∀ v ∈ (validateDuty cs d cats).violations, v.severity ≠ Severity.blocking := by
  have : (validateDuty cs d cats).isLegal =
      (((validateDuty cs d cats).violations.filter
        (fun v => v.severity == Severity.blocking)).length == 0) := by
    simp [validateDuty]
  rw [this]
  simp [List.length_eq_zero, List.filter_eq_nil_iff]

/-- A blocking violation in the list forces `isLegal = false`. -/
theorem validateDuty_not_isLegal {cs : CrewDutyState} {d : DutyPeriod}
    {cats : List String} {v : Violation}
    (hv : v ∈ (validateDuty cs d cats).violations)
    (hb : v.severity = Severity.blocking) :
    (validateDuty cs d cats).isLegal = false := by
  cases h : (validateDuty cs d cats).isLegal with
  | false => rfl
  | true => exact absurd hb (validateDuty_isLegal_iff.mp h v hv)

/-- With the regulatory category requested, the verdict is legal exactly when
no regulatory check fired. -/
theorem validateDuty_isLegal_part117_iff {cs : CrewDutyState} {d : DutyPeriod}
    {cats : List String} (h : "part117" ∈ cats) :
    (validateDuty cs d cats).isLegal = true ↔ part117Violations cs d = [] := by
  rw [validateDuty_isLegal_iff]
  rw [validateDuty_violations_of_part117 h]
  constructor
  · intro hall
    cases he : part117Violations cs d with
    | nil => rfl
    | cons x xs =>
        exact absurd (@part117Violations_blocking cs d x (by simp [he]))
          (hall x (by simp [he]))
  · intro he v hv
    rw [he] at hv
    simp at hv

theorem ite_singleton_eq_nil {α : Type} {c : Prop} [Decidable c] {x : α} :
    (if c then [x] else []) = [] ↔ ¬c := by
  by_cases h : c <;> simp [h]

theorem ite_option_toList_eq_nil {α : Type} {c : Prop} [Decidable c] {x : α} :
    (if c then some x else none : Option α).toList = [] ↔ ¬c := by
  by_cases h : c <;> simp [h]

/-- The regulatory violation list is empty exactly when every regulatory
check passes. -/
theorem part117Violations_eq_nil_iff {cs : CrewDutyState} {d : DutyPeriod} :
    part117Violations cs d = [] ↔
      d.totalDutyHours ≤ 13 ∧ d.totalFlightHours ≤ 9 ∧
      requiredRestFor cs ≤ restHoursOf cs d ∧
      cs.flightHoursMonth + d.totalFlightHours ≤ 100 ∧
      cs.flightHoursYear + d.totalFlightHours ≤ 1000 := by
  simp [part117Violations, checkFlightDutyPeriod, checkFlightTime, checkRestRequirements,
    checkCumulativeLimits, part117Limits, ite_singleton_eq_nil, ite_option_toList_eq_nil,
    List.append_eq_nil, not_lt]

/-! ## Concrete sample inputs used by the witnesses and counterexamples -/

/-- A fresh reserve crew member state: rested since the epoch, no cumulative
hours, no consecutive duty days. -/
def sampleCrewState : CrewDutyState :=
  { employeeId := "E0"
    stateStartUtc := 0
    stateEndUtc := 0
    stateType := CrewStateType.RESERVE
    currentLocation := "ORD"
    dutyHoursCumulative := 0
    restHoursCumulative := 0
    flightHoursMonth := 0
    flightHoursYear := 0
    consecutiveDutyDays := 0
    assignedFlights := [] }

/-- A modest proposed duty starting at 12:00 UTC on day 2 (instant
129600000 ms = 36 h): 6.5 duty hours, 5 flight hours, 36 h of prior rest
relative to `sampleCrewState`. -/
def sampleDuty : DutyPeriod :=
  { startTimeUtc := 129600000
    endTimeUtc := 129600000 + 18000000
    reportTimeUtc := 129600000 - 3600000
    releaseTimeUtc := 129600000 + 19800000
    flights := []
    totalDutyHours := 13 / 2
    totalFlightHours := 5 }

/-- A 14-hour proposed duty (duty-length overrun). -/
def overrunDuty : DutyPeriod :=
  { sampleDuty with totalDutyHours := 14, totalFlightHours := 9 }

/-- A crew state at 3 consecutive duty days, rested since the epoch. -/
def threeDayCrewState : CrewDutyState :=
  { sampleCrewState with consecutiveDutyDays := 3 }

/-- A duty starting 11 hours after the epoch: an 11-hour rest gap relative to
`threeDayCrewState`. -/
def elevenHourRestDuty : DutyPeriod :=
  { sampleDuty with
      startTimeUtc := 39600000
      endTimeUtc := 39600000 + 18000000
      reportTimeUtc := 39600000 - 3600000
      releaseTimeUtc := 39600000 + 19800000 }

/-! ## Claim theorems -/

/-- C1: for every crew state, proposed duty and category list, the verdict of
`validateDuty` has `isLegal` true iff its violations list contains no entry
of blocking severity; every violation carries category `part117` (so no
fatigue-risk-group finding ever lands in the violations list), and every
entry of the warnings list carries category `fatigue_risk` and warning or
advisory severity — hence fatigue-risk findings never make a verdict
illegal. -/
theorem c1_isLegal_iff_no_blocking_violation (cs : CrewDutyState) (d : DutyPeriod)
    (cats : List String) :
    ((validateDuty cs d cats).isLegal = true ↔
      ∀ v ∈ (validateDuty cs d cats).violations, v.severity ≠ Severity.blocking) ∧
    (∀ v ∈ (validateDuty cs d cats).violations, v.category = "part117") ∧
    (∀ w ∈ (validateDuty cs d cats).warnings,
      w.category = "fatigue_risk" ∧
      (w.severity = Severity.warning ∨ w.severity = Severity.advisory)) := by
  refine ⟨validateDuty_isLegal_iff, ?_, ?_⟩
  · intro v hv
    by_cases h : "part117" ∈ cats
    · rw [validateDuty_violations_of_part117 h] at hv
      exact @part117Violations_category cs d v hv
    · rw [validateDuty_violations_of_not_part117 h] at hv
      simp at hv
  · intro w hw
    rcases mem_validateDuty_warnings.mp hw with ⟨_, _, rfl⟩ | ⟨_, ⟨_, rfl⟩ | ⟨_, rfl⟩⟩
    · exact ⟨rfl, Or.inl rfl⟩
    · exact ⟨rfl, Or.inr rfl⟩
    · exact ⟨rfl, Or.inr rfl⟩

/-- Witness for C1 at a concrete verdict. -/
theorem c1_witness :
    ((validateDuty sampleCrewState overrunDuty ["part117"]).isLegal = true ↔
      ∀ v ∈ (validateDuty sampleCrewState overrunDuty ["part117"]).violations,
        v.severity ≠ Severity.blocking) ∧
    (∀ v ∈ (validateDuty sampleCrewState overrunDuty ["part117"]).violations,
      v.category = "part117") ∧
    (∀ w ∈ (validateDuty sampleCrewState overrunDuty ["part117"]).warnings,
      w.category = "fatigue_risk" ∧
      (w.severity = Severity.warning ∨ w.severity = Severity.advisory)) :=
  c1_isLegal_iff_no_blocking_violation sampleCrewState overrunDuty ["part117"]

/-- C2: with the `part117` category requested, a blocking duty-length
violation (rule 117.25(d), observed `totalDutyHours`, limit 13) is in the
verdict iff `totalDutyHours > 13`, and any such overrun forces
`isLegal = false` regardless of the crew state and of every other check. -/
theorem c2_duty_length_overrun_blocks (cs : CrewDutyState) (d : DutyPeriod)
    (cats : List String) (h : "part117" ∈ cats) :
    ((∃ v ∈ (validateDuty cs d cats).violations,
        v.rule = "117.25(d)" ∧ v.severity = Severity.blocking ∧
        v.currentValue = some d.totalDutyHours ∧ v.limitValue = some 13) ↔
      d.totalDutyHours > 13) ∧
    (d.totalDutyHours > 13 → (validateDuty cs d cats).isLegal = false) := by
  constructor
  · constructor
    · rintro ⟨v, hv, hrule, -, -, -⟩
      rw [validateDuty_violations_of_part117 h] at hv
      rcases mem_part117Violations.mp hv with
        ⟨hc, rfl⟩ | ⟨hc, rfl⟩ | ⟨hc, rfl⟩ | ⟨hc, rfl⟩ | ⟨hc, rfl⟩
      · exact hc
      · exact absurd hrule (by simp [flightTimeViolation])
      · exact absurd hrule (by simp [restViolation])
      · exact absurd hrule (by simp [monthCapViolation])
      · exact absurd hrule (by simp [yearCapViolation])
    · intro hgt
      refine ⟨fdpViolation d, ?_, rfl, rfl, rfl, rfl⟩
      rw [validateDuty_violations_of_part117 h]
      exact mem_part117Violations.mpr (Or.inl ⟨hgt, rfl⟩)
  · intro hgt
    refine validateDuty_not_isLegal (v := fdpViolation d) ?_ rfl
    rw [validateDuty_violations_of_part117 h]
    exact mem_part117Violations.mpr (Or.inl ⟨hgt, rfl⟩)

/-- Witness for C2: a 14-hour duty is over the 13-hour limit and illegal. -/
theorem c2_witness :
    "part117" ∈ (["part117"] : List String) ∧
    (((∃ v ∈ (validateDuty sampleCrewState overrunDuty ["part117"]).violations,
        v.rule = "117.25(d)" ∧ v.severity = Severity.blocking ∧
        v.currentValue = some overrunDuty.totalDutyHours ∧ v.limitValue = some 13) ↔
      overrunDuty.totalDutyHours > 13) ∧
    (overrunDuty.totalDutyHours > 13 →
      (validateDuty sampleCrewState overrunDuty ["part117"]).isLegal = false)) :=
  ⟨by simp, c2_duty_length_overrun_blocks sampleCrewState overrunDuty ["part117"] (by simp)⟩

/-- C3: with the `part117` category requested, the observed rest is the gap
from the crew state's window end to the proposed start in hours, the
required rest is 12 when `consecutiveDutyDays ≥ 3` and 10 otherwise, and a
blocking insufficient-rest violation (rule 117.25(b)) appears iff observed
is strictly below required.  A negative observed rest yields the violation
(no crash: the evaluator is total), and an 11-hour gap passes the rest
check — and, when every other check passes, the whole verdict — exactly
when `consecutiveDutyDays < 3`. -/
theorem c3_rest_sufficiency (cs : CrewDutyState) (d : DutyPeriod)
    (cats : List String) (h : "part117" ∈ cats) :
    (restHoursOf cs d = ((d.startTimeUtc - cs.stateEndUtc : Int) : Rat) / 3600000) ∧
    (requiredRestFor cs = if cs.consecutiveDutyDays ≥ 3 then 12 else 10) ∧
    ((∃ v ∈ (validateDuty cs d cats).violations,
        v.rule = "117.25(b)" ∧ v.severity = Severity.blocking ∧
        v.currentValue = some (restHoursOf cs d) ∧
        v.limitValue = some (requiredRestFor cs)) ↔
      restHoursOf cs d < requiredRestFor cs) ∧
    (restHoursOf cs d < 0 →
      ∃ v ∈ (validateDuty cs d cats).violations, v.rule = "117.25(b)") ∧
    (restHoursOf cs d = 11 →
      ((∃ v ∈ (validateDuty cs d cats).violations, v.rule = "117.25(b)") ↔
        3 ≤ cs.consecutiveDutyDays)) ∧
    (restHoursOf cs d = 11 → d.totalDutyHours ≤ 13 → d.totalFlightHours ≤ 9 →
      cs.flightHoursMonth + d.totalFlightHours ≤ 100 →
      cs.flightHoursYear + d.totalFlightHours ≤ 1000 →
      ((validateDuty cs d cats).isLegal = true ↔ cs.consecutiveDutyDays < 3)) := by
  have hreq : requiredRestFor cs = if cs.consecutiveDutyDays ≥ 3 then 12 else 10 := by
    simp [requiredRestFor, part117Limits]
  have hmem : ∀ v, v ∈ (validateDuty cs d cats).violations ∧ v.rule = "117.25(b)" →
      restHoursOf cs d < requiredRestFor cs ∧ v = restViolation cs d := by
    rintro v ⟨hv, hrule⟩
    rw [validateDuty_violations_of_part117 h] at hv
    rcases mem_part117Violations.mp hv with
      ⟨hc, rfl⟩ | ⟨hc, rfl⟩ | ⟨hc, rfl⟩ | ⟨hc, rfl⟩ | ⟨hc, rfl⟩
    · exact absurd hrule (by simp [fdpViolation])
    · exact absurd hrule (by simp [flightTimeViolation])
    · exact ⟨hc, rfl⟩
    · exact absurd hrule (by simp [monthCapViolation])
    · exact absurd hrule (by simp [yearCapViolation])
  have hput : restHoursOf cs d < requiredRestFor cs →
      restViolation cs d ∈ (validateDuty cs d cats).violations := by
    intro hlt
    rw [validateDuty_violations_of_part117 h]
    exact mem_part117Violations.mpr (Or.inr (Or.inr (Or.inl ⟨hlt, rfl⟩)))
  refine ⟨by norm_num [restHoursOf], hreq, ?_, ?_, ?_, ?_⟩
  · constructor
    · rintro ⟨v, hv, hrule, -, -, -⟩
      exact (hmem v ⟨hv, hrule⟩).1
    · intro hlt
      exact ⟨restViolation cs d, hput hlt, rfl, rfl, rfl, rfl⟩
  · intro hneg
    have hpos : (0 : Rat) ≤ requiredRestFor cs := by
      rw [hreq]; split <;> norm_num
    exact ⟨restViolation cs d, hput (lt_of_lt_of_le hneg hpos), rfl⟩
  · intro h11
    constructor
    · rintro ⟨v, hv, hrule⟩
      have hlt := (hmem v ⟨hv, hrule⟩).1
      rw [h11, hreq] at hlt
      by_cases h3 : 3 ≤ cs.consecutiveDutyDays
      · exact h3
      · rw [if_neg h3] at hlt
        norm_num at hlt
    · intro h3
      refine ⟨restViolation cs d, hput ?_, rfl⟩
      rw [h11, hreq, if_pos h3]
      norm_num
  · intro h11 h1 h2 h4 h5
    rw [validateDuty_isLegal_part117_iff h, part117Violations_eq_nil_iff]
    rw [h11, hreq]
    constructor
    · rintro ⟨-, -, hrest, -, -⟩
      by_contra h3
      rw [if_pos (by omega)] at hrest
      norm_num at hrest
    · intro h3
      refine ⟨h1, h2, ?_, h4, h5⟩
      rw [if_neg (by omega)]
      norm_num

/-- Witness for C3: an 11-hour rest gap at 3 consecutive duty days. -/
theorem c3_witness :
    "part117" ∈ (["part117"] : List String) ∧
    ((restHoursOf threeDayCrewState elevenHourRestDuty =
      ((elevenHourRestDuty.startTimeUtc - threeDayCrewState.stateEndUtc : Int) : Rat) /
        3600000) ∧
    (requiredRestFor threeDayCrewState =
      if threeDayCrewState.consecutiveDutyDays ≥ 3 then 12 else 10) ∧
    ((∃ v ∈ (validateDuty threeDayCrewState elevenHourRestDuty ["part117"]).violations,
        v.rule = "117.25(b)" ∧ v.severity = Severity.blocking ∧
        v.currentValue = some (restHoursOf threeDayCrewState elevenHourRestDuty) ∧
        v.limitValue = some (requiredRestFor threeDayCrewState)) ↔
      restHoursOf threeDayCrewState elevenHourRestDuty <
        requiredRestFor threeDayCrewState) ∧
    (restHoursOf threeDayCrewState elevenHourRestDuty < 0 →
      ∃ v ∈ (validateDuty threeDayCrewState elevenHourRestDuty ["part117"]).violations,
        v.rule = "117.25(b)") ∧
    (restHoursOf threeDayCrewState elevenHourRestDuty = 11 →
      ((∃ v ∈ (validateDuty threeDayCrewState elevenHourRestDuty ["part117"]).violations,
          v.rule = "117.25(b)") ↔
        3 ≤ threeDayCrewState.consecutiveDutyDays)) ∧
    (restHoursOf threeDayCrewState elevenHourRestDuty = 11 →
      elevenHourRestDuty.totalDutyHours ≤ 13 → elevenHourRestDuty.totalFlightHours ≤ 9 →
      threeDayCrewState.flightHoursMonth + elevenHourRestDuty.totalFlightHours ≤ 100 →
      threeDayCrewState.flightHoursYear + elevenHourRestDuty.totalFlightHours ≤ 1000 →
      ((validateDuty threeDayCrewState elevenHourRestDuty ["part117"]).isLegal = true ↔
        threeDayCrewState.consecutiveDutyDays < 3))) :=
  ⟨by simp,
    c3_rest_sufficiency threeDayCrewState elevenHourRestDuty ["part117"] (by simp)⟩

/-- A crew state with 98 prior 28-day flight hours. -/
def highMonthCrewState : CrewDutyState :=
  { sampleCrewState with flightHoursMonth := 98 }

/-- C4: with the `part117` category requested, a blocking 28-day-cap
violation (rule 117.23(b), observed `flightHoursMonth + totalFlightHours`,
limit 100) appears iff the projected total strictly exceeds 100; any such
breach forces `isLegal = false`; a projected total of exactly 100 emits no
such violation; and 98 prior hours plus 5 proposed hours yield the
violation at observed 103 and an illegal verdict. -/
theorem c4_month_cap_breach (cs : CrewDutyState) (d : DutyPeriod)
    (cats : List String) (h : "part117" ∈ cats) :
    ((∃ v ∈ (validateDuty cs d cats).violations,
        v.rule = "117.23(b)" ∧ v.severity = Severity.blocking ∧
        v.currentValue = some (cs.flightHoursMonth + d.totalFlightHours) ∧
        v.limitValue = some 100) ↔
      cs.flightHoursMonth + d.totalFlightHours > 100) ∧
    (cs.flightHoursMonth + d.totalFlightHours > 100 →
      (validateDuty cs d cats).isLegal = false) ∧
    (cs.flightHoursMonth + d.totalFlightHours = 100 →
      ¬ ∃ v ∈ (validateDuty cs d cats).violations,
          v.rule = "117.23(b)" ∧ v.limitValue = some 100) ∧
    (cs.flightHoursMonth = 98 → d.totalFlightHours = 5 →
      (∃ v ∈ (validateDuty cs d cats).violations,
        v.rule = "117.23(b)" ∧ v.severity = Severity.blocking ∧
        v.currentValue = some 103 ∧ v.limitValue = some 100) ∧
      (validateDuty cs d cats).isLegal = false) := by
  have hmem : ∀ v, v ∈ (validateDuty cs d cats).violations ∧
      v.rule = "117.23(b)" ∧ v.limitValue = some 100 →
      cs.flightHoursMonth + d.totalFlightHours > 100 ∧ v = monthCapViolation cs d := by
    rintro v ⟨hv, hrule, hlim⟩
    rw [validateDuty_violations_of_part117 h] at hv
    rcases mem_part117Violations.mp hv with
      ⟨hc, rfl⟩ | ⟨hc, rfl⟩ | ⟨hc, rfl⟩ | ⟨hc, rfl⟩ | ⟨hc, rfl⟩
    · exact absurd hrule (by simp [fdpViolation])
    · exact absurd hrule (by simp [flightTimeViolation])
    · exact absurd hrule (by simp [restViolation])
    · exact ⟨hc, rfl⟩
    · exact absurd hlim (by norm_num [yearCapViolation, part117Limits])
  have hput : cs.flightHoursMonth + d.totalFlightHours > 100 →
      monthCapViolation cs d ∈ (validateDuty cs d cats).violations := by
    intro hgt
    rw [validateDuty_violations_of_part117 h]
    exact mem_part117Violations.mpr (Or.inr (Or.inr (Or.inr (Or.inl ⟨hgt, rfl⟩))))
  have hiff : (∃ v ∈ (validateDuty cs d cats).violations,
      v.rule = "117.23(b)" ∧ v.severity = Severity.blocking ∧
      v.currentValue = some (cs.flightHoursMonth + d.totalFlightHours) ∧
      v.limitValue = some 100) ↔
      cs.flightHoursMonth + d.totalFlightHours > 100 := by
    constructor
    · rintro ⟨v, hv, hrule, -, -, hlim⟩
      exact (hmem v ⟨hv, hrule, hlim⟩).1
    · intro hgt
      exact ⟨monthCapViolation cs d, hput hgt, rfl, rfl, rfl, by
        simp [monthCapViolation, part117Limits]⟩
  refine ⟨hiff, ?_, ?_, ?_⟩
  · intro hgt
    exact validateDuty_not_isLegal (v := monthCapViolation cs d) (hput hgt) rfl
  · intro heq
    rintro ⟨v, hv, hrule, hlim⟩
    have := (hmem v ⟨hv, hrule, hlim⟩).1
    rw [heq] at this
    norm_num at this
  · intro h98 h5
    have hgt : cs.flightHoursMonth + d.totalFlightHours > 100 := by
      rw [h98, h5]; norm_num
    refine ⟨⟨monthCapViolation cs d, hput hgt, rfl, rfl, ?_, by
        simp [monthCapViolation, part117Limits]⟩,
      validateDuty_not_isLegal (v := monthCapViolation cs d) (hput hgt) rfl⟩
    simp [monthCapViolation, h98, h5]
    norm_num

/-- Witness for C4: 98 prior hours plus the 5-hour sample duty. -/
theorem c4_witness :
    "part117" ∈ (["part117"] : List String) ∧
    (((∃ v ∈ (validateDuty highMonthCrewState sampleDuty ["part117"]).violations,
        v.rule = "117.23(b)" ∧ v.severity = Severity.blocking ∧
        v.currentValue =
          some (highMonthCrewState.flightHoursMonth + sampleDuty.totalFlightHours) ∧
        v.limitValue = some 100) ↔
      highMonthCrewState.flightHoursMonth + sampleDuty.totalFlightHours > 100) ∧
    (highMonthCrewState.flightHoursMonth + sampleDuty.totalFlightHours > 100 →
      (validateDuty highMonthCrewState sampleDuty ["part117"]).isLegal = false) ∧
    (highMonthCrewState.flightHoursMonth + sampleDuty.totalFlightHours = 100 →
      ¬ ∃ v ∈ (validateDuty highMonthCrewState sampleDuty ["part117"]).violations,
          v.rule = "117.23(b)" ∧ v.limitValue = some 100) ∧
    (highMonthCrewState.flightHoursMonth = 98 → sampleDuty.totalFlightHours = 5 →
      (∃ v ∈ (validateDuty highMonthCrewState sampleDuty ["part117"]).violations,
        v.rule = "117.23(b)" ∧ v.severity = Severity.blocking ∧
        v.currentValue = some 103 ∧ v.limitValue = some 100) ∧
      (validateDuty highMonthCrewState sampleDuty ["part117"]).isLegal = false)) :=
  ⟨by simp, c4_month_cap_breach highMonthCrewState sampleDuty ["part117"] (by simp)⟩

/-- A duty starting at 03:00 UTC (inside the configured 02:00–06:00
circadian-low window), with ample rest relative to `sampleCrewState`. -/
def woclMorningDuty : DutyPeriod :=
  { sampleDuty with
      startTimeUtc := 97200000
      endTimeUtc := 97200000 + 18000000
      reportTimeUtc := 97200000 - 3600000
      releaseTimeUtc := 97200000 + 19800000 }

/-- Counterexample to C5: a duty starting at 03:00 UTC — inside the
configured circadian-low window — validated with the fatigue-risk category
alone produces no circadian-low warning at all, because the source gates
the circadian-low check behind the `part117` category. -/
theorem c5_counterexample :
    dutyHourOf woclMorningDuty = 3 ∧
    (2 ≤ dutyHourOf woclMorningDuty ∧ dutyHourOf woclMorningDuty ≤ 6) ∧
    (validateDuty sampleCrewState woclMorningDuty ["fatigue_risk"]).warnings = [] := by
  refine ⟨by decide, by decide, ?_⟩
  simp [validateDuty, assessFatigueRisk, sampleCrewState, woclMorningDuty, sampleDuty]
  norm_num

/-- C5 (amended): the circadian-low check is gated by the `part117`
category.  With `part117` requested, a circadian-low warning (rule
FRMS_WOCL, severity warning) is present iff the proposed start's UTC
hour-of-day lies in [2, 6]; the finding never appears in the violations
list; and without `part117` — in particular with only the fatigue-risk
category — no circadian-low warning is ever emitted. -/
theorem c5_wocl_gated_by_part117 (cs : CrewDutyState) (d : DutyPeriod)
    (cats : List String) (h : "part117" ∈ cats) :
    ((∃ w ∈ (validateDuty cs d cats).warnings,
        w.rule = "FRMS_WOCL" ∧ w.severity = Severity.warning) ↔
      (2 ≤ dutyHourOf d ∧ dutyHourOf d ≤ 6)) ∧
    (∀ v ∈ (validateDuty cs d cats).violations, v.rule ≠ "FRMS_WOCL") ∧
    (∀ cats2 : List String, "part117" ∉ cats2 →
      ∀ w ∈ (validateDuty cs d cats2).warnings, w.rule ≠ "FRMS_WOCL") := by
  refine ⟨⟨?_, ?_⟩, ?_, ?_⟩
  · rintro ⟨w, hw, hrule, -⟩
    rcases mem_validateDuty_warnings.mp hw with ⟨-, hcond, rfl⟩ | ⟨-, ⟨-, rfl⟩ | ⟨-, rfl⟩⟩
    · exact hcond
    · exact absurd hrule (by simp [consecutiveDutyViolation])
    · exact absurd hrule (by simp [longDutyViolation])
  · intro hcond
    exact ⟨woclViolation, mem_validateDuty_warnings.mpr (Or.inl ⟨h, hcond, rfl⟩), rfl, rfl⟩
  · intro v hv
    by_cases hp : "part117" ∈ cats
    · rw [validateDuty_violations_of_part117 hp] at hv
      rcases mem_part117Violations.mp hv with
        ⟨-, rfl⟩ | ⟨-, rfl⟩ | ⟨-, rfl⟩ | ⟨-, rfl⟩ | ⟨-, rfl⟩ <;>
        simp [fdpViolation, flightTimeViolation, restViolation, monthCapViolation,
          yearCapViolation]
    · rw [validateDuty_violations_of_not_part117 hp] at hv
      simp at hv
  · intro cats2 h2 w hw
    rcases mem_validateDuty_warnings.mp hw with ⟨hp, -, rfl⟩ | ⟨-, ⟨-, rfl⟩ | ⟨-, rfl⟩⟩
    · exact absurd hp h2
    · simp [consecutiveDutyViolation]
    · simp [longDutyViolation]

/-- Witness for C5 (amended) at the 03:00 duty with the regulatory
category requested. -/
theorem c5_witness :
    "part117" ∈ (["part117"] : List String) ∧
    (((∃ w ∈ (validateDuty sampleCrewState woclMorningDuty ["part117"]).warnings,
        w.rule = "FRMS_WOCL" ∧ w.severity = Severity.warning) ↔
      (2 ≤ dutyHourOf woclMorningDuty ∧ dutyHourOf woclMorningDuty ≤ 6)) ∧
    (∀ v ∈ (validateDuty sampleCrewState woclMorningDuty ["part117"]).violations,
      v.rule ≠ "FRMS_WOCL") ∧
    (∀ cats2 : List String, "part117" ∉ cats2 →
      ∀ w ∈ (validateDuty sampleCrewState woclMorningDuty cats2).warnings,
        w.rule ≠ "FRMS_WOCL")) :=
  ⟨by simp,
    c5_wocl_gated_by_part117 sampleCrewState woclMorningDuty ["part117"] (by simp)⟩

/-! ## Properties of the stable descending sort -/

theorem length_insertByRankDesc (a : CrewReplacement) (l : List CrewReplacement) :
    (insertByRankDesc a l).length = l.length + 1 := by
  induction l with
  | nil => rfl
  | cons b t ih =>
      simp only [insertByRankDesc]
      split <;> simp [ih]

theorem length_sortByRankDesc (l : List CrewReplacement) :
    (sortByRankDesc l).length = l.length := by
  induction l with
  | nil => rfl
  | cons a t ih => simp [sortByRankDesc, length_insertByRankDesc, ih]

theorem mem_insertByRankDesc {a x : CrewReplacement} {l : List CrewReplacement} :
    x ∈ insertByRankDesc a l ↔ x = a ∨ x ∈ l := by
  induction l with
  | nil => simp [insertByRankDesc]
  | cons b t ih =>
      simp only [insertByRankDesc]
      split
      · simp [ih]
        tauto
      · simp
        try tauto

theorem sorted_insertByRankDesc {a : CrewReplacement} {l : List CrewReplacement}
    (h : l.Pairwise (fun x y => y.rankScore ≤ x.rankScore)) :
    (insertByRankDesc a l).Pairwise (fun x y => y.rankScore ≤ x.rankScore) := by
  induction l with
  | nil => simp [insertByRankDesc]
  | cons b t ih =>
      rw [List.pairwise_cons] at h
      obtain ⟨hb, ht⟩ := h
      simp only [insertByRankDesc]
      by_cases hlt : a.rankScore < b.rankScore
      · rw [if_pos hlt, List.pairwise_cons]
        refine ⟨?_, ih ht⟩
        intro y hy
        rcases mem_insertByRankDesc.mp hy with rfl | hy2
        · exact le_of_lt hlt
        · exact hb y hy2
      · rw [if_neg hlt, List.pairwise_cons]
        refine ⟨?_, List.pairwise_cons.mpr ⟨hb, ht⟩⟩
        intro y hy
        rcases List.mem_cons.mp hy with rfl | hy2
        · exact not_lt.mp hlt
        · exact le_trans (hb y hy2) (not_lt.mp hlt)

theorem sorted_sortByRankDesc (l : List CrewReplacement) :
    (sortByRankDesc l).Pairwise (fun x y => y.rankScore ≤ x.rankScore) := by
  induction l with
  | nil => simp [sortByRankDesc]
  | cons a t ih => exact sorted_insertByRankDesc ih

theorem sublist_insertByRankDesc (a : CrewReplacement) (l : List CrewReplacement) :
    List.Sublist l (insertByRankDesc a l) := by
  induction l with
  | nil => exact List.nil_sublist _
  | cons b t ih =>
      simp only [insertByRankDesc]
      split
      · exact List.Sublist.cons₂ b ih
      · exact List.Sublist.cons a (List.Sublist.refl _)

theorem pair_sublist_insertByRankDesc {a b : CrewReplacement} {l : List CrewReplacement}
    (hb : b ∈ l) (hle : b.rankScore ≤ a.rankScore) :
    List.Sublist [a, b] (insertByRankDesc a l) := by
  induction l with
  | nil => simp at hb
  | cons c t ih =>
      simp only [insertByRankDesc]
      by_cases hlt : a.rankScore < c.rankScore
      · rw [if_pos hlt]
        rcases List.mem_cons.mp hb with rfl | hb2
        · exact absurd (lt_of_lt_of_le hlt hle) (lt_irrefl _)
        · exact List.Sublist.cons c (ih hb2)
      · rw [if_neg hlt]
        exact List.Sublist.cons₂ a (List.singleton_sublist.mpr hb)

theorem mem_sortByRankDesc {x : CrewReplacement} {l : List CrewReplacement} :
    x ∈ sortByRankDesc l ↔ x ∈ l := by
  induction l with
  | nil => simp [sortByRankDesc]
  | cons a t ih => simp [sortByRankDesc, mem_insertByRankDesc, ih]

/-- Stability: an in-order pair whose scores are weakly descending keeps its
relative order through the sort. -/
theorem sortByRankDesc_stable {a b : CrewReplacement} {l : List CrewReplacement}
    (h : List.Sublist [a, b] l) (hle : b.rankScore ≤ a.rankScore) :
    List.Sublist [a, b] (sortByRankDesc l) := by
  induction l with
  | nil => simp at h
  | cons x t ih =>
      cases h with
      | cons _ h2 =>
          exact List.Sublist.trans (ih h2) (sublist_insertByRankDesc x (sortByRankDesc t))
      | cons₂ _ h2 =>
          exact pair_sublist_insertByRankDesc
            (mem_sortByRankDesc.mpr (List.singleton_sublist.mp h2)) hle

/-! ## Replacement-search inputs with a rank-score tie -/

/-- A reserve duty state identical to `sampleCrewState` except for the id. -/
def tieStateE2 : CrewDutyState := { sampleCrewState with employeeId := "E2" }

/-- A reserve duty state identical to `sampleCrewState` except for the id. -/
def tieStateE1 : CrewDutyState := { sampleCrewState with employeeId := "E1" }

/-- Member record for the reserve inserted first. -/
def tieMemberE2 : CrewMember :=
  { employeeId := "E2"
    firstName := "Bea"
    lastName := "Baker"
    position := CrewPosition.CA
    base := "ORD"
    qualifications := { aircraftTypes := ["B737"] } }

/-- Member record for the reserve inserted second. -/
def tieMemberE1 : CrewMember :=
  { employeeId := "E1"
    firstName := "Abe"
    lastName := "Adams"
    position := CrewPosition.CA
    base := "ORD"
    qualifications := { aircraftTypes := ["B737"] } }

/-- A service whose store holds two interchangeable reserves, the one with
the larger id inserted first. -/
def svcTie : CrewStateService :=
  { crewStates := [tieStateE2, tieStateE1]
    crewMembers := [tieMemberE2, tieMemberE1] }

/-- A replacement search over `svcTie` at the sample departure instant. -/
def paramsTie : FindReplacementParams :=
  { flightNumber := "UA100"
    position := CrewPosition.CA
    departureTimeUtc := 129600000
    base := "ORD"
    aircraftType := "B737"
    maxResults := 5
    includeDeadheadOptions := true }

/-- Counterexample to C6: both candidates score 100, and the result keeps
the store's insertion order E2 before E1 — not the ascending-identifier
order E1 before E2 the claim requires on ties. -/
theorem c6_counterexample :
    ((findReplacementCrew svcTie paramsTie).map (fun c => c.employeeId) = ["E2", "E1"]) ∧
    ((findReplacementCrew svcTie paramsTie).map (fun c => c.rankScore) = [100, 100]) ∧
    ¬ List.Pairwise (fun a b : CrewReplacement =>
        b.rankScore < a.rankScore ∨
        (a.rankScore = b.rankScore ∧ a.employeeId < b.employeeId))
      (findReplacementCrew svcTie paramsTie) := by
  have hhour : dutyHourOf (buildProposedDuty 129600000) = 12 := by decide
  have hpvE2 : part117Violations tieStateE2 (buildProposedDuty 129600000) = [] :=
    part117Violations_eq_nil_iff.mpr (by
      norm_num [restHoursOf, requiredRestFor, tieStateE2, sampleCrewState,
        buildProposedDuty, part117Limits])
  have hpvE1 : part117Violations tieStateE1 (buildProposedDuty 129600000) = [] :=
    part117Violations_eq_nil_iff.mpr (by
      norm_num [restHoursOf, requiredRestFor, tieStateE1, sampleCrewState,
        buildProposedDuty, part117Limits])
  have hlegE2 : (validateDuty tieStateE2 (buildProposedDuty 129600000)
      ["part117", "fatigue_risk"]).isLegal = true :=
    (validateDuty_isLegal_part117_iff (by simp)).mpr hpvE2
  have hlegE1 : (validateDuty tieStateE1 (buildProposedDuty 129600000)
      ["part117", "fatigue_risk"]).isLegal = true :=
    (validateDuty_isLegal_part117_iff (by simp)).mpr hpvE1
  have hwE2 : (validateDuty tieStateE2 (buildProposedDuty 129600000)
      ["part117", "fatigue_risk"]).warnings = [] := by
    rw [validateDuty_warnings_eq]
    simp [checkWoclExposure, hhour, assessFatigueRisk, tieStateE2, sampleCrewState]
    norm_num [buildProposedDuty]
  have hwE1 : (validateDuty tieStateE1 (buildProposedDuty 129600000)
      ["part117", "fatigue_risk"]).warnings = [] := by
    rw [validateDuty_warnings_eq]
    simp [checkWoclExposure, hhour, assessFatigueRisk, tieStateE1, sampleCrewState]
    norm_num [buildProposedDuty]
  have hpool : replacementPool svcTie paramsTie = [tieStateE2, tieStateE1] := by decide
  have hg2 : getCrewMember svcTie "E2" = some tieMemberE2 := by decide
  have hg1 : getCrewMember svcTie "E1" = some tieMemberE1 := by decide
  have hdep : paramsTie.departureTimeUtc = 129600000 := rfl
  have e2id : tieStateE2.employeeId = "E2" := rfl
  have e1id : tieStateE1.employeeId = "E1" := rfl
  have e2fm : tieStateE2.flightHoursMonth = 0 := rfl
  have e1fm : tieStateE1.flightHoursMonth = 0 := rfl
  have e2dh : tieStateE2.dutyHoursCumulative = 0 := rfl
  have e1dh : tieStateE1.dutyHoursCumulative = 0 := rfl
  have e2cd : tieStateE2.consecutiveDutyDays = 0 := rfl
  have e1cd : tieStateE1.consecutiveDutyDays = 0 := rfl
  have hp1 : (buildProposedDuty 129600000).totalFlightHours = 5 := rfl
  have hp2 : (buildProposedDuty 129600000).totalDutyHours = 13 / 2 := rfl
  have hmax : paramsTie.maxResults = 5 := rfl
  have hmap :
      ((findReplacementCrew svcTie paramsTie).map (fun c => c.employeeId) = ["E2", "E1"]) ∧
      ((findReplacementCrew svcTie paramsTie).map (fun c => c.rankScore) = [100, 100]) := by
    norm_num [findReplacementCrew, legalCandidates, List.filterMap_cons, hmax,
      hpool, hg2, hg1, hdep, e2id, e1id,
      e2fm, e1fm, e2dh, e1dh, e2cd, e1cd, hp1, hp2, hlegE2, hlegE1, hwE2, hwE1,
      buildCandidate, sortByRankDesc, insertByRankDesc, calculateRankScore,
      calculateCrewCost, tieMemberE2, tieMemberE1, inf_eq_min, sup_eq_max, min_def, max_def]
  refine ⟨hmap.1, hmap.2, ?_⟩
  intro hpw
  obtain ⟨h1, h2⟩ := hmap
  rcases hL : findReplacementCrew svcTie paramsTie with _ | ⟨a, _ | ⟨b, t⟩⟩
  · rw [hL] at h1
    simp at h1
  · rw [hL] at h1
    simp at h1
  · rw [hL] at h1 h2 hpw
    simp only [List.map_cons, List.cons.injEq] at h1 h2
    rw [List.pairwise_cons] at hpw
    have hr := hpw.1 b (by simp)
    rcases hr with hlt | ⟨heq, hlt2⟩
    · rw [h2.1, h2.2.1] at hlt
      exact absurd hlt (lt_irrefl _)
    · rw [h1.1, h1.2.1] at hlt2
      refine absurd hlt2 ?_
      simp [String.lt_iff_toList_lt]
      decide

/-- C6 (amended): the search returns exactly `min maxResults M` of the `M`
legal candidates, in weakly descending `rankScore` order; candidates of
equal score stay in the candidate pool's insertion order (the sort is
stable), not in ascending-identifier order.  Determinism on identical
inputs holds because the modelled search is a pure function of the store
and parameters. -/
theorem c6_rank_ordering (svc : CrewStateService) (p : FindReplacementParams) :
    (findReplacementCrew svc p).length =
      min p.maxResults (legalCandidates svc p).length ∧
    (findReplacementCrew svc p).Pairwise (fun a b => b.rankScore ≤ a.rankScore) ∧
    (∀ a b : CrewReplacement, List.Sublist [a, b] (legalCandidates svc p) →
      b.rankScore ≤ a.rankScore →
      List.Sublist [a, b] (sortByRankDesc (legalCandidates svc p))) := by
  refine ⟨?_, ?_, ?_⟩
  · simp [findReplacementCrew, List.length_take, length_sortByRankDesc]
  · exact List.Pairwise.sublist (List.take_sublist _ _) (sorted_sortByRankDesc _)
  · intro a b h hle
    exact sortByRankDesc_stable h hle

/-- A reserve currently located away from their home base. -/
def awayState : CrewDutyState :=
  { sampleCrewState with employeeId := "E9", currentLocation := "LAX" }

/-- Member record for the away reserve; home base is the requested base. -/
def awayMember : CrewMember :=
  { employeeId := "E9"
    firstName := "Cal"
    lastName := "Cole"
    position := CrewPosition.CA
    base := "ORD"
    qualifications := { aircraftTypes := ["B737"] } }

/-- A service holding only the away reserve. -/
def svcAway : CrewStateService :=
  { crewStates := [awayState]
    crewMembers := [awayMember] }

/-- A replacement search at base ORD with deadhead options excluded. -/
def paramsAway : FindReplacementParams :=
  { flightNumber := "UA200"
    position := CrewPosition.CA
    departureTimeUtc := 129600000
    base := "ORD"
    aircraftType := "B737"
    maxResults := 5
    includeDeadheadOptions := false }

/-- Counterexample to C7: with `includeDeadheadOptions := false`, a reserve
whose current location is LAX — not the requested base ORD — is still
returned, because the source never reads the flag and filters the pool by
home base only. -/
theorem c7_counterexample :
    paramsAway.includeDeadheadOptions = false ∧
    paramsAway.base = "ORD" ∧
    (findReplacementCrew svcAway paramsAway).map
      (fun c => c.logistics.currentLocation) = ["LAX"] := by
  refine ⟨rfl, rfl, ?_⟩
  have hhour : dutyHourOf (buildProposedDuty 129600000) = 12 := by decide
  have hpv : part117Violations awayState (buildProposedDuty 129600000) = [] :=
    part117Violations_eq_nil_iff.mpr (by
      norm_num [restHoursOf, requiredRestFor, awayState, sampleCrewState,
        buildProposedDuty, part117Limits])
  have hleg : (validateDuty awayState (buildProposedDuty 129600000)
      ["part117", "fatigue_risk"]).isLegal = true :=
    (validateDuty_isLegal_part117_iff (by simp)).mpr hpv
  have hpool : replacementPool svcAway paramsAway = [awayState] := by decide
  have hg : getCrewMember svcAway "E9" = some awayMember := by decide
  have hdep : paramsAway.departureTimeUtc = 129600000 := rfl
  have hid : awayState.employeeId = "E9" := rfl
  have hloc : awayState.currentLocation = "LAX" := rfl
  have hmax : paramsAway.maxResults = 5 := rfl
  simp [findReplacementCrew, legalCandidates, List.filterMap_cons, hmax, hpool, hg,
    hdep, hid, hloc, hleg, buildCandidate, sortByRankDesc, insertByRankDesc]

/-- C7 (amended): `includeDeadheadOptions` has no effect on the replacement
search — the source destructures it away — so the result with the flag
false (or any value) is the result with the flag true; in particular
candidates away from the requested base are not excluded. -/
theorem c7_deadhead_flag_unused (svc : CrewStateService) (p : FindReplacementParams)
    (b1 b2 : Bool) :
    findReplacementCrew svc { p with includeDeadheadOptions := b1 } =
      findReplacementCrew svc { p with includeDeadheadOptions := b2 } := rfl

/-- Witness for C7 (amended): the away-reserve search gives the same result
with and without deadhead options. -/
theorem c7_witness :
    findReplacementCrew svcAway { paramsAway with includeDeadheadOptions := false } =
      findReplacementCrew svcAway { paramsAway with includeDeadheadOptions := true } :=
  c7_deadhead_flag_unused svcAway paramsAway false true

/-- Witness for C6 (amended) at the tied two-candidate search. -/
theorem c6_witness :
    (findReplacementCrew svcTie paramsTie).length =
      min paramsTie.maxResults (legalCandidates svcTie paramsTie).length ∧
    (findReplacementCrew svcTie paramsTie).Pairwise
      (fun a b => b.rankScore ≤ a.rankScore) ∧
    (∀ a b : CrewReplacement, List.Sublist [a, b] (legalCandidates svcTie paramsTie) →
      b.rankScore ≤ a.rankScore →
      List.Sublist [a, b] (sortByRankDesc (legalCandidates svcTie paramsTie))) :=
  c6_rank_ordering svcTie paramsTie

/-- A service with empty stores: the empty reserve pool. -/
def emptySvc : CrewStateService :=
  { crewStates := []
    crewMembers := [] }

/-- C8: when no candidate survives legality filtering the search returns the
empty list, and an empty reserve pool in particular yields no legal
candidates.  The embedded search is a total function, so no fault is ever
thrown. -/
theorem c8_no_legal_candidates_empty_list (svc : CrewStateService)
    (p : FindReplacementParams) :
    (replacementPool svc p = [] → legalCandidates svc p = []) ∧
    (legalCandidates svc p = [] → findReplacementCrew svc p = []) := by
  constructor
  · intro h
    simp [legalCandidates, h]
  · intro h
    simp [findReplacementCrew, h, sortByRankDesc]

/-- Witness for C8 at the empty service. -/
theorem c8_witness :
    replacementPool emptySvc paramsTie = [] ∧
    legalCandidates emptySvc paramsTie = [] ∧
    findReplacementCrew emptySvc paramsTie = [] := by
  have h1 : replacementPool emptySvc paramsTie = [] := by decide
  have h2 := (c8_no_legal_candidates_empty_list emptySvc paramsTie).1 h1
  exact ⟨h1, h2, (c8_no_legal_candidates_empty_list emptySvc paramsTie).2 h2⟩

/-- The categories that actually trigger checks in `validateDuty`, following
the spec's words ("categories evaluated"): the requested names among
`part117` and `fatigue_risk`. -/
def evaluatedCategories (cats : List String) : List String :=
  cats.filter (fun c => c == "part117" || c == "fatigue_risk")

/-- Counterexample to C9: an unknown category name triggers no checks — the
verdict carries no violations and no warnings — yet `checksPerformed` echoes
the unknown name instead of listing the (empty) set of categories that were
evaluated. -/
theorem c9_counterexample :
    (validateDuty sampleCrewState sampleDuty ["bogus"]).violations = [] ∧
    (validateDuty sampleCrewState sampleDuty ["bogus"]).warnings = [] ∧
    evaluatedCategories ["bogus"] = [] ∧
    (validateDuty sampleCrewState sampleDuty ["bogus"]).checksPerformed = ["bogus"] := by
  refine ⟨?_, ?_, by decide, validateDuty_checksPerformed⟩
  · exact validateDuty_violations_of_not_part117 (by decide)
  · rw [validateDuty_warnings_eq]
    simp

/-- C9 (amended): unknown category names are ignored — dropping them changes
neither the violations, the warnings, nor the legal flag — but
`checksPerformed` echoes the requested category list verbatim rather than
the evaluated subset. -/
theorem c9_unknown_categories_ignored (cs : CrewDutyState) (d : DutyPeriod)
    (cats : List String) :
    (validateDuty cs d cats).violations =
      (validateDuty cs d (evaluatedCategories cats)).violations ∧
    (validateDuty cs d cats).warnings =
      (validateDuty cs d (evaluatedCategories cats)).warnings ∧
    (validateDuty cs d cats).isLegal =
      (validateDuty cs d (evaluatedCategories cats)).isLegal ∧
    (validateDuty cs d cats).checksPerformed = cats := by
  have hp : ("part117" ∈ evaluatedCategories cats) ↔ ("part117" ∈ cats) := by
    simp [evaluatedCategories, List.mem_filter]
  have hf : ("fatigue_risk" ∈ evaluatedCategories cats) ↔ ("fatigue_risk" ∈ cats) := by
    simp [evaluatedCategories, List.mem_filter]
  have hviol : (validateDuty cs d cats).violations =
      (validateDuty cs d (evaluatedCategories cats)).violations := by
    by_cases h : "part117" ∈ cats
    · rw [validateDuty_violations_of_part117 h,
        validateDuty_violations_of_part117 (hp.mpr h)]
    · rw [validateDuty_violations_of_not_part117 h,
        validateDuty_violations_of_not_part117 (fun hx => h (hp.mp hx))]
  refine ⟨hviol, ?_, ?_, validateDuty_checksPerformed⟩
  · rw [validateDuty_warnings_eq, validateDuty_warnings_eq]
    rw [if_congr hp.symm rfl rfl, if_congr hf.symm rfl rfl]
  · rw [validateDuty_isLegal_eq, validateDuty_isLegal_eq, hviol]

/-- Witness for C9 (amended) at a list mixing a known and an unknown name. -/
theorem c9_witness :
    (validateDuty sampleCrewState sampleDuty ["part117", "bogus"]).violations =
      (validateDuty sampleCrewState sampleDuty
        (evaluatedCategories ["part117", "bogus"])).violations ∧
    (validateDuty sampleCrewState sampleDuty ["part117", "bogus"]).warnings =
      (validateDuty sampleCrewState sampleDuty
        (evaluatedCategories ["part117", "bogus"])).warnings ∧
    (validateDuty sampleCrewState sampleDuty ["part117", "bogus"]).isLegal =
      (validateDuty sampleCrewState sampleDuty
        (evaluatedCategories ["part117", "bogus"])).isLegal ∧
    (validateDuty sampleCrewState sampleDuty ["part117", "bogus"]).checksPerformed =
      ["part117", "bogus"] :=
  c9_unknown_categories_ignored sampleCrewState sampleDuty ["part117", "bogus"]

/-- C10: with both crew ids present, a dry-run swap returns the preview
result — status `pending`, `rollbackAvailable` false, the four planned
changes and the notifications — and returns the service state unchanged:
no `updateCrewState` call is reflected in the resulting store. -/
theorem c10_dry_run_is_pure_preview (svc : CrewStateService)
    (input : ExecuteCrewSwapInput) (o r : CrewDutyState)
    (hdry : input.dryRun = true)
    (ho : getCrewStatus svc input.originalCrewId = some o)
    (hr : getCrewStatus svc input.replacementCrewId = some r) :
    executeCrewSwap input svc =
      ({ status := some "pending"
         dryRun := true
         message := "Dry run completed successfully - no changes made"
         changes := swapChanges input o r
         notifications := swapNotifications input
         rollbackAvailable := false }, svc) ∧
    (executeCrewSwap input svc).2 = svc ∧
    (executeCrewSwap input svc).1.error = false ∧
    (executeCrewSwap input svc).1.status = some "pending" ∧
    (executeCrewSwap input svc).1.rollbackAvailable = false ∧
    (executeCrewSwap input svc).1.changes.length = 4 ∧
    (input.notifyCrews = true →
      (executeCrewSwap input svc).1.notifications.length = 2) := by
  have hmain : executeCrewSwap input svc =
      ({ status := some "pending"
         dryRun := true
         message := "Dry run completed successfully - no changes made"
         changes := swapChanges input o r
         notifications := swapNotifications input
         rollbackAvailable := false }, svc) := by
    simp [executeCrewSwap, ho, hr, hdry]
  refine ⟨hmain, ?_, ?_, ?_, ?_, ?_, ?_⟩
  · rw [hmain]
  · rw [hmain]
  · rw [hmain]
  · rw [hmain]
  · rw [hmain]
    simp [swapChanges]
  · intro hn
    rw [hmain]
    simp [swapNotifications, hn]

/-- A crew member on duty for flight UA100. -/
def swapStateA : CrewDutyState :=
  { sampleCrewState with
      employeeId := "A1"
      stateType := CrewStateType.DUTY
      assignedFlights := ["UA100"] }

/-- A reserve crew member available as replacement. -/
def swapStateB : CrewDutyState :=
  { sampleCrewState with employeeId := "B2" }

/-- A service holding the two swap participants. -/
def svcSwap : CrewStateService :=
  { crewStates := [swapStateA, swapStateB]
    crewMembers := [] }

/-- A dry-run swap request replacing A1 with B2 on UA100. -/
def dryRunInput : ExecuteCrewSwapInput :=
  { flightNumber := "UA100"
    position := CrewPosition.CA
    originalCrewId := "A1"
    replacementCrewId := "B2"
    reason := "sick call"
    effectiveTimeUtc := 129600000
    notifyCrews := true
    dryRun := true }

/-- Witness for C10 at the concrete dry-run swap. -/
theorem c10_witness :
    dryRunInput.dryRun = true ∧
    getCrewStatus svcSwap dryRunInput.originalCrewId = some swapStateA ∧
    getCrewStatus svcSwap dryRunInput.replacementCrewId = some swapStateB ∧
    (executeCrewSwap dryRunInput svcSwap =
      ({ status := some "pending"
         dryRun := true
         message := "Dry run completed successfully - no changes made"
         changes := swapChanges dryRunInput swapStateA swapStateB
         notifications := swapNotifications dryRunInput
         rollbackAvailable := false }, svcSwap) ∧
    (executeCrewSwap dryRunInput svcSwap).2 = svcSwap ∧
    (executeCrewSwap dryRunInput svcSwap).1.error = false ∧
    (executeCrewSwap dryRunInput svcSwap).1.status = some "pending" ∧
    (executeCrewSwap dryRunInput svcSwap).1.rollbackAvailable = false ∧
    (executeCrewSwap dryRunInput svcSwap).1.changes.length = 4 ∧
    (dryRunInput.notifyCrews = true →
      (executeCrewSwap dryRunInput svcSwap).1.notifications.length = 2)) := by
  have ho : getCrewStatus svcSwap dryRunInput.originalCrewId = some swapStateA := by
    decide
  have hr : getCrewStatus svcSwap dryRunInput.replacementCrewId = some swapStateB := by
    decide
  exact ⟨rfl, ho, hr,
    c10_dry_run_is_pure_preview svcSwap dryRunInput swapStateA swapStateB rfl ho hr⟩
